import Mathlib

/-!
Verification of the foreign-types framework (src/src/lib.rs).

The crate defines the marker type `Opaque`, the traits `ForeignType`
(owned wrappers) and `ForeignTypeRef` (borrowed wrappers), and a
`foreign_type!` macro that, for a resource description
(owned name, borrowed name, ctype, drop fn), emits
  - `pub struct $owned(*mut $ctype)` with `ForeignType::from_ptr`,
    a `Drop` impl calling `$drop(self.0)`, and `Deref`/`DerefMut`
    to `$borrowed` via `ForeignTypeRef::from_ptr(_mut)(self.0)`,
  - `pub struct $borrowed($crate::Opaque)` implementing `ForeignTypeRef`.

Shallow embedding: a raw C pointer is modelled by its address (a `Nat`);
a Rust reference `&$borrowed` produced by the unchecked cast
`&*(ptr as *mut _)` is modelled by the address it points at, since the
cast is a pure pointer reinterpretation.  Foreign calls made by the
generated code are recorded as events; the generated conversions are
pure casts and emit none, the generated `Drop` impl emits exactly one
call of the supplied release operation.
-/

/-- A raw C pointer (`*mut CType`), modelled by its machine address.
The address 0 is the null pointer. -/
abbrev Ptr := Nat

/-- The marker type `pub struct Opaque(UnsafeCell<()>);`.  Its single
field is an `UnsafeCell<()>`, whose payload `()` is modelled by `Unit`. -/
structure Opaque where
  cell : Unit

/-- The resource description consumed by one invocation of the
`foreign_type!` macro: the owned type name, the borrowed type name, the
raw-handle element type (`ctype`, recorded structurally as text), and the
name of the supplied release operation (`drop`). -/
structure PairDesc where
  ownedName : String
  borrowedName : String
  ctype : String
  dropName : String
deriving DecidableEq, Repr

/-- An observable effect of the generated code: a call of the foreign
function named `fn` with the raw handle `arg`.  The generated
conversions are pure casts; only the generated `Drop` impl and foreign
accessors produce events. -/
inductive Event where
  | call (fn : String) (arg : Ptr)
deriving DecidableEq, Repr

/-- A shared borrowed reference `&'a $borrowed` for the pair `d`.  Per
the crate doc, `$borrowed` values never exist; references to them are
created from raw C pointers, so the reference is fully described by the
address it carries. -/
structure Ref (d : PairDesc) where
  addr : Ptr
deriving DecidableEq, Repr

/-- An exclusive borrowed reference `&'a mut $borrowed` for the pair
`d`, likewise described by the address it carries. -/
structure MutRef (d : PairDesc) where
  addr : Ptr
deriving DecidableEq, Repr

/-- The generated borrowed struct `pub struct $borrowed($crate::Opaque);`
itself: a single-field wrapper around `Opaque`.  It is the pointee type
of `Ref`/`MutRef`; the framework never builds a value of it. -/
structure BorrowedStruct (d : PairDesc) where
  field0 : Opaque

/-- Trait method `ForeignTypeRef::from_ptr`:
`unsafe fn from_ptr<'a>(ptr: *mut Self::CType) -> &'a Self { &*(ptr as *mut _) }` —
a pure cast producing the shared reference at address `ptr`. -/
def ForeignTypeRef.from_ptr (d : PairDesc) (p : Ptr) : Ref d := ⟨p⟩

/-- Trait method `ForeignTypeRef::from_ptr_mut`:
`unsafe fn from_ptr_mut<'a>(ptr: *mut Self::CType) -> &'a mut Self { &mut *(ptr as *mut _) }` —
a pure cast producing the exclusive reference at address `ptr`. -/
def ForeignTypeRef.from_ptr_mut (d : PairDesc) (p : Ptr) : MutRef d := ⟨p⟩

/-- Trait method `ForeignTypeRef::as_ptr`:
`fn as_ptr(&self) -> *mut Self::CType { self as *const _ as *mut _ }` —
a pure cast recovering the address the reference points at. -/
def ForeignTypeRef.as_ptr {d : PairDesc} (r : Ref d) : Ptr := r.addr

/-- The implicit reborrow `&*self` by which an exclusive reference is
used where a shared one is expected (e.g. to call `as_ptr`). -/
def MutRef.reborrow {d : PairDesc} (m : MutRef d) : Ref d := ⟨m.addr⟩

/-- The generated owned struct `pub struct $owned(*mut $ctype);`: a
single-field wrapper storing the raw handle. -/
structure Owned (d : PairDesc) where
  ptr : Ptr
deriving DecidableEq, Repr

/-- Generated trait impl `ForeignType::from_ptr` for `$owned`:
`unsafe fn from_ptr(ptr: *mut $ctype) -> $owned { $owned(ptr) }` —
direct field construction. -/
def ForeignType.from_ptr (d : PairDesc) (p : Ptr) : Owned d := ⟨p⟩

/-- `ForeignType::from_ptr` together with the foreign calls its body
makes: the body `$owned(ptr)` is a bare constructor application, so the
trace is empty. -/
def ForeignType.from_ptrTraced (d : PairDesc) (p : Ptr) : Owned d × List Event :=
  (⟨p⟩, [])

/-- Generated `impl Deref for $owned`:
`fn deref(&self) -> &$borrowed { unsafe { ForeignTypeRef::from_ptr(self.0) } }`. -/
def Owned.deref {d : PairDesc} (o : Owned d) : Ref d :=
  ForeignTypeRef.from_ptr d o.ptr

/-- Generated `impl DerefMut for $owned`:
`fn deref_mut(&mut self) -> &mut $borrowed { unsafe { ForeignTypeRef::from_ptr_mut(self.0) } }`. -/
def Owned.deref_mut {d : PairDesc} (o : Owned d) : MutRef d :=
  ForeignTypeRef.from_ptr_mut d o.ptr

/-- Generated `impl Drop for $owned`:
`fn drop(&mut self) { unsafe { $drop(self.0) } }` — the foreign calls
made when the owned value's scope ends: exactly one call of the
supplied release operation with the stored handle. -/
def Owned.dropEvents {d : PairDesc} (o : Owned d) : List Event :=
  [Event.call d.dropName o.ptr]

/-- Foreign calls made when a shared borrowed reference's scope ends.
The generated `$borrowed` has no `Drop` impl and its only field is the
zero-size `Opaque`, so discarding a reference to it performs no
operation at all. -/
def Ref.scopeEndEvents {d : PairDesc} (_ : Ref d) : List Event := []

/-- Foreign calls made when an exclusive borrowed reference's scope
ends; likewise none. -/
def MutRef.scopeEndEvents {d : PairDesc} (_ : MutRef d) : List Event := []

/-- One framework-generated use of a live owned value: take a shared
view via `Deref` and let it go out of scope, take an exclusive view via
`DerefMut` and let it go out of scope, or build a borrowed view from a
raw handle (as a foreign view-returning accessor does) and let it go
out of scope. -/
inductive Use where
  | useDeref
  | useDerefMut
  | viewRaw (p : Ptr)
deriving DecidableEq, Repr

/-- Execute one use of the owned value: the owned value afterwards
(the generated impls only ever read the field `self.0`, never write
it) together with the foreign calls made during the use, including
those made when the borrowed view's scope ends. -/
def step {d : PairDesc} (o : Owned d) : Use → Owned d × List Event
  | Use.useDeref => (o, Ref.scopeEndEvents o.deref)
  | Use.useDerefMut => (o, MutRef.scopeEndEvents o.deref_mut)
  | Use.viewRaw p => (o, Ref.scopeEndEvents (ForeignTypeRef.from_ptr d p))

/-- Execute a sequence of uses of a live owned value, accumulating the
foreign calls made. -/
def runActions {d : PairDesc} (o : Owned d) : List Use → Owned d × List Event
  | [] => (o, [])
  | a :: rest =>
    let oe := step o a
    let oe' := runActions oe.1 rest
    (oe'.1, oe.2 ++ oe'.2)

/-- The foreign calls made over the full lifetime of an owned value:
construction from the raw handle `p` by `ForeignType::from_ptr`, any
sequence of framework-generated uses, and the scope-end `Drop`. -/
def lifetimeTrace (d : PairDesc) (p : Ptr) (acts : List Use) : List Event :=
  let oe₀ := ForeignType.from_ptrTraced d p
  let oe₁ := runActions oe₀.1 acts
  oe₀.2 ++ (oe₁.2 ++ Owned.dropEvents oe₁.1)

/-- Every framework-generated use is a pure cast: it leaves the owned
value unchanged and makes no foreign call. -/
theorem step_pure {d : PairDesc} (o : Owned d) (a : Use) :
    step o a = (o, []) := by
  cases a <;> rfl

/-- Running any sequence of framework-generated uses leaves the owned
value unchanged and makes no foreign call. -/
theorem runActions_pure {d : PairDesc} (o : Owned d) (acts : List Use) :
    runActions o acts = (o, []) := by
  induction acts with
  | nil => rfl
  | cons a rest ih =>
    simp [runActions, step_pure, ih]

/-- The lifetime trace is exactly one release call, with the handle the
owned value was built from. -/
theorem lifetimeTrace_eq (d : PairDesc) (p : Ptr) (acts : List Use) :
    lifetimeTrace d p acts = [Event.call d.dropName p] := by
  simp [lifetimeTrace, ForeignType.from_ptrTraced, runActions_pure,
    Owned.dropEvents]

/-- C1: viewing a raw handle as a borrowed reference with `from_ptr`
(shared) or `from_ptr_mut` (exclusive) and recovering the handle with
`as_ptr` yields the original handle, bit for bit. -/
theorem C1_roundtrip (d : PairDesc) (p : Ptr) :
    ForeignTypeRef.as_ptr (ForeignTypeRef.from_ptr d p) = p ∧
    ForeignTypeRef.as_ptr (MutRef.reborrow (ForeignTypeRef.from_ptr_mut d p)) = p :=
  ⟨rfl, rfl⟩

/-- C2: over the full lifetime of an owned value built from handle `p`
— construction, any sequence of framework-generated uses, scope-end
`Drop` — the supplied release operation is invoked exactly once, with
the stored handle `p` as its argument, and it is the last event of the
lifetime, so it is never invoked again on that handle afterward. -/
theorem C2_release_exactly_once (d : PairDesc) (p : Ptr) (acts : List Use) :
    (lifetimeTrace d p acts).count (Event.call d.dropName p) = 1 ∧
    (lifetimeTrace d p acts).getLast? = some (Event.call d.dropName p) := by
  rw [lifetimeTrace_eq]
  exact ⟨by simp, rfl⟩

/-- C3: for an owned value constructed from raw handle `p`, both the
shared deref and the exclusive deref_mut yield a borrowed reference
whose recovered handle equals `p`; hence any method defined on the
borrowed type, reading its handle through `as_ptr`, operates on the
owned value's own handle with no explicit conversion. -/
theorem C3_deref_same_handle (d : PairDesc) (p : Ptr) :
    ForeignTypeRef.as_ptr (Owned.deref (ForeignType.from_ptr d p)) = p ∧
    ForeignTypeRef.as_ptr (MutRef.reborrow (Owned.deref_mut (ForeignType.from_ptr d p))) = p ∧
    ∀ (α : Type) (m : Ptr → α),
      m (ForeignTypeRef.as_ptr (Owned.deref (ForeignType.from_ptr d p))) = m p :=
  ⟨rfl, rfl, fun _ _ => rfl⟩

/-- C4: ending the scope of a borrowed reference, shared or exclusive,
performs no operation on the underlying handle: the generated borrowed
type has no `Drop` impl, so the scope-end trace is empty and in
particular contains no call of any pair's release operation. -/
theorem C4_borrowed_scope_end_noop (d : PairDesc) (r : Ref d) (m : MutRef d) :
    Ref.scopeEndEvents r = [] ∧
    MutRef.scopeEndEvents m = [] ∧
    ∀ (fn : String) (p : Ptr), Event.call fn p ∉ Ref.scopeEndEvents r ∧
      Event.call fn p ∉ MutRef.scopeEndEvents m := by
  refine ⟨rfl, rfl, fun fn p => ⟨?_, ?_⟩⟩ <;> simp [Ref.scopeEndEvents, MutRef.scopeEndEvents]

/-- C5: the conversions `from_ptr`, `from_ptr_mut`, `as_ptr` and the
owned constructor are total over every raw handle, the null handle 0
included: each is a plain function into the result type (no error
value is ever constructed or returned), performs no foreign call, and
succeeds per its contract at every input. -/
theorem C5_total_no_validation (d : PairDesc) (p : Ptr) :
    (ForeignTypeRef.from_ptr d p).addr = p ∧
    (ForeignTypeRef.from_ptr_mut d p).addr = p ∧
    ForeignTypeRef.as_ptr (ForeignTypeRef.from_ptr d p) = p ∧
    (ForeignType.from_ptr d p).ptr = p ∧
    (ForeignType.from_ptrTraced d p).2 = [] ∧
    (ForeignType.from_ptr d 0).ptr = 0 ∧
    (ForeignTypeRef.from_ptr d 0).addr = 0 :=
  ⟨rfl, rfl, rfl, rfl, rfl, rfl, rfl⟩

/-- C6: the generated owned constructor `ForeignType::from_ptr` returns
an owned value whose single field is exactly the supplied handle `p`,
makes no foreign call at all in doing so, and in particular does not
call the release operation. -/
theorem C6_from_ptr_pure (d : PairDesc) (p : Ptr) :
    (ForeignType.from_ptrTraced d p).1 = Owned.mk p ∧
    (ForeignType.from_ptrTraced d p).1.ptr = p ∧
    (ForeignType.from_ptrTraced d p).2 = [] ∧
    ∀ q : Ptr, Event.call d.dropName q ∉ (ForeignType.from_ptrTraced d p).2 := by
  refine ⟨rfl, rfl, rfl, fun q => ?_⟩
  simp [ForeignType.from_ptrTraced]

/-- C7: for two resource pairs produced by independent invocations of
the generator (so their generated type names and their supplied release
operations are distinct), releasing an owned value of one pair calls
exactly that pair's own release operation and never the other pair's —
even when the two descriptions declare the same raw handle element
type; the expansions share no generated identifiers. -/
theorem C7_pairs_independent (d₁ d₂ : PairDesc)
    (hOwned : d₁.ownedName ≠ d₂.ownedName)
    (hBorrowed : d₁.borrowedName ≠ d₂.borrowedName)
    (hDrop : d₁.dropName ≠ d₂.dropName)
    (o₁ : Owned d₁) (o₂ : Owned d₂) :
    Owned.dropEvents o₁ = [Event.call d₁.dropName o₁.ptr] ∧
    Owned.dropEvents o₂ = [Event.call d₂.dropName o₂.ptr] ∧
    (∀ q : Ptr, Event.call d₂.dropName q ∉ Owned.dropEvents o₁) ∧
    (∀ q : Ptr, Event.call d₁.dropName q ∉ Owned.dropEvents o₂) := by
  refine ⟨rfl, rfl, fun q => ?_, fun q => ?_⟩ <;>
    simp [Owned.dropEvents] <;> intro h
  · exact (hDrop h.symm).elim
  · exact (hDrop h).elim

/-- C7 witness: the pairs Foo/FooRef (release `FOO_free`) and
Bar/BarRef (release `BAR_free`) declare the same raw handle element
type, yet dropping a `Bar` over handle 7 never calls `FOO_free`, and
dropping a `Foo` over handle 5 never calls `BAR_free`. -/
theorem C7_pairs_independent_witness :
    Owned.dropEvents (d := ⟨"Foo", "FooRef", "FOO", "FOO_free"⟩) ⟨5⟩ =
      [Event.call "FOO_free" 5] ∧
    Owned.dropEvents (d := ⟨"Bar", "BarRef", "FOO", "BAR_free"⟩) ⟨7⟩ =
      [Event.call "BAR_free" 7] ∧
    Event.call "BAR_free" 5 ∉
      Owned.dropEvents (d := ⟨"Foo", "FooRef", "FOO", "FOO_free"⟩) ⟨5⟩ ∧
    Event.call "FOO_free" 7 ∉
      Owned.dropEvents (d := ⟨"Bar", "BarRef", "FOO", "BAR_free"⟩) ⟨7⟩ :=
  have h := C7_pairs_independent ⟨"Foo", "FooRef", "FOO", "FOO_free"⟩
    ⟨"Bar", "BarRef", "FOO", "BAR_free"⟩
    (by decide) (by decide) (by decide) ⟨5⟩ ⟨7⟩
  ⟨h.1, h.2.1, h.2.2.1 5, h.2.2.2 7⟩

/-- C8: two shared borrowed views constructed from the same raw handle
`p` by `from_ptr` coexist as values, are the same view, and `as_ptr` on
each recovers the same handle `p`. -/
theorem C8_shared_views_coexist (d : PairDesc) (p : Ptr) :
    ForeignTypeRef.as_ptr (ForeignTypeRef.from_ptr d p) = p ∧
    ForeignTypeRef.as_ptr (ForeignTypeRef.from_ptr d p) =
      ForeignTypeRef.as_ptr (ForeignTypeRef.from_ptr d p) :=
  ⟨rfl, rfl⟩

/-- C9: the marker type `Opaque` carries no data (any two values of it
are equal, and it holds exactly a unit cell), every generated borrowed
struct is a single-field wrapper around it that likewise carries no
data, and the framework conversions act on addresses alone — `as_ptr`
reads only the reference's address, so no `Opaque` value is ever
constructed or consulted by any framework operation. -/
theorem C9_opaque_marker (d : PairDesc) :
    (∀ a b : Opaque, a = b) ∧
    (∀ a b : BorrowedStruct d, a = b) ∧
    (∀ s : BorrowedStruct d, s = BorrowedStruct.mk s.field0) ∧
    (∀ r : Ref d, ForeignTypeRef.as_ptr r = r.addr) := by
  refine ⟨fun a b => ?_, fun a b => ?_, fun s => rfl, fun r => rfl⟩
  · cases a; cases b; rfl
  · cases a with
    | mk fa => cases b with
      | mk fb => cases fa; cases fb; rfl

/-- C10: the stored handle of an owned value built from `p` is never
modified by any framework operation: after any sequence of
framework-generated uses the field still holds exactly `p`, every
deref and deref_mut taken then is a view of exactly `p`, and the
release call made at drop receives exactly `p`. -/
theorem C10_handle_never_modified (d : PairDesc) (p : Ptr) (acts : List Use) :
    (runActions (ForeignType.from_ptr d p) acts).1.ptr = p ∧
    (Owned.deref (runActions (ForeignType.from_ptr d p) acts).1).addr = p ∧
    (Owned.deref_mut (runActions (ForeignType.from_ptr d p) acts).1).addr = p ∧
    Owned.dropEvents (runActions (ForeignType.from_ptr d p) acts).1 =
      [Event.call d.dropName p] := by
  rw [runActions_pure]
  exact ⟨rfl, rfl, rfl, rfl⟩
